import Mathlib

set_option maxRecDepth 2000

/-!
Shallow embedding of the myopia-dx backend (Node/Express + Mongoose) for
verification of its specification claims.

Sources embedded here:
- src/services/inferenceService.js (src/unnamed/part_000): `runYOLO`, `runResNet`
  with the async-retry wrapper around the HTTP call.
- src/controllers/diagnosisController.js: `createDiagnosis`, `getDiagnosisById`,
  `updateDiagnosis`, `getPatientsBySeverity` (the per-patient severity map),
  `isMoreSevere`, and the retinal-image part of the same file:
  `uploadRetinalImage`, `getRetinalImageById`.
- src/controllers/patientController.js (src/unnamed/part_001): `getPatientById`,
  `deletePatient`.
- src/controllers/recommendationController.js: `generateRecommendation`.

Modelling conventions:
- Mongo ObjectIds are `Nat`.
- The document store is an explicit `DB` record of lists; `Model.findById` is
  `List.find?` on the id; `doc.save()` replaces the list entry with the same id.
- External HTTP calls are parameters: an inference endpoint is a function from
  the attempt number to `Except String response`; the LLM response is a value.
- JS `undefined`/`null` fields are `Option`; JS string truthiness (`!s` is true
  for "" and for absent) is modelled where the code relies on it.
- JS numbers inside detection records (confidence, bounding box) are `Int`;
  no verified path performs arithmetic on them.
- Thrown exceptions that reach a controller's `catch` block (e.g. reading a
  field of a null populated link, a rejected `Promise.all`, a failed DB write)
  are modelled as the 500 response the catch block sends, with no DB mutation.
-/

namespace MyopiaDx

/-- Bounding box of one YOLO detection (models/Diagnosis.js). -/
structure BoundingBox where
  x : Int
  y : Int
  width : Int
  height : Int
deriving DecidableEq, Repr

/-- One YOLO detection (models/Diagnosis.js `yoloDetections` entries). -/
structure Detection where
  label : String
  confidence : Int
  boundingBox : BoundingBox
deriving DecidableEq, Repr

/-- models/Patient.js (fields relevant to the claims). -/
structure Patient where
  id : Nat
  doctorId : Nat
deriving DecidableEq, Repr

/-- models/RetinalImage.js (fields relevant to the claims). -/
structure RetinalImage where
  id : Nat
  patientId : Nat
  uploadedBy : Nat
  originalImagePath : String
  yoloOutputPath : Option String
deriving DecidableEq, Repr

/-- models/Diagnosis.js. -/
structure Diagnosis where
  id : Nat
  retinalImageId : Nat
  yoloDetections : List Detection
  severityLevel : String
  notes : Option String
  diagnosedAt : Nat
deriving DecidableEq, Repr

/-- models/Recommendation.js (src/unnamed/part_002). -/
structure Recommendation where
  id : Nat
  diagnosisId : Nat
  patientId : Nat
  recommendationText : String
  createdBy : Nat
  createdAt : Nat
deriving DecidableEq, Repr

/-- The Mongo collections touched by the embedded controllers. -/
structure DB where
  patients : List Patient
  images : List RetinalImage
  diagnoses : List Diagnosis
  recommendations : List Recommendation
deriving DecidableEq, Repr

/-- `Patient.findById(pid)`. -/
def findPatient (db : DB) (pid : Nat) : Option Patient :=
  db.patients.find? (fun p => p.id == pid)

/-- `RetinalImage.findById(iid)`. -/
def findImage (db : DB) (iid : Nat) : Option RetinalImage :=
  db.images.find? (fun i => i.id == iid)

/-- `Diagnosis.findById(did)`. -/
def findDiag (db : DB) (did : Nat) : Option Diagnosis :=
  db.diagnoses.find? (fun d => d.id == did)

/-- `Diagnosis.findOne({ retinalImageId })`. -/
def findDiagByImage (db : DB) (iid : Nat) : Option Diagnosis :=
  db.diagnoses.find? (fun d => d.retinalImageId == iid)

/-- `doc.save()` on a retinal image: replace the entry with the same id. -/
def saveImage (l : List RetinalImage) (img : RetinalImage) : List RetinalImage :=
  l.map (fun x => if x.id == img.id then img else x)

/-- `doc.save()` on a diagnosis: replace the entry with the same id. -/
def saveDiag (l : List Diagnosis) (d : Diagnosis) : List Diagnosis :=
  l.map (fun x => if x.id == d.id then d else x)

/-- Fresh `_id` Mongo would mint for a new diagnosis. -/
def freshDiagId (db : DB) : Nat :=
  (db.diagnoses.map Diagnosis.id).foldr max 0 + 1

/-- Fresh `_id` Mongo would mint for a new retinal image. -/
def freshImageId (db : DB) : Nat :=
  (db.images.map RetinalImage.id).foldr max 0 + 1

/-! ## Inference client (src/unnamed/part_000, inferenceService) -/

/-- Raw JSON body of a YOLO endpoint response. `detections = none` models a
body whose `detections` field is missing or not an array (the code checks
`!data.detections || !Array.isArray(data.detections)`); `output_image` is the
optional output-image path field. -/
structure YoloRaw where
  detections : Option (List Detection)
  output_image : Option String
deriving DecidableEq, Repr

/-- Raw JSON body of a ResNet endpoint response. `severity_level = none`
models a missing or non-string `severity_level` field (the code checks
`!data.severity_level || typeof data.severity_level !== "string"`; the
falsy check also rejects the empty string, kept below). -/
structure ResnetRaw where
  severity_level : Option String
deriving DecidableEq, Repr

/-- `MAX_RETRIES` (env `INFERENCE_MAX_RETRIES`, default 3), passed to
async-retry as its `retries` option. -/
def MAX_RETRIES : Nat := 3

/-- The async-retry loop around the axios call: `attempt` is the HTTP call at
a given attempt number (1-based); `fuel` is the remaining number of retries
(async-retry's `retries` option counts retries after the first attempt).
Returns the final outcome together with the total number of attempts issued.
Backoff delays (factor 2, minTimeout 1s, maxTimeout 5s) only pace the
attempts and do not affect the result, so they are not modelled. -/
def retryRun (attempt : Nat → Except String α) : Nat → Nat → Except String α × Nat
  | fuel, k =>
    match attempt k with
    | .ok a => (.ok a, k)
    | .error e =>
      match fuel with
      | 0 => (.error e, k)
      | n + 1 => retryRun attempt n (k + 1)

/-- `runYOLO(imagePath)`. `fileExists` models `fs.existsSync(imagePath)`;
`http` is the external endpoint; `retries` is the async-retry `retries`
option (`MAX_RETRIES` in the source). Returns the outcome (the thrown error
message, or the validated body) and the number of HTTP attempts issued. -/
def runYOLO (fileExists : Bool) (http : Nat → Except String YoloRaw)
    (retries : Nat) : Except String YoloRaw × Nat :=
  if !fileExists then
    (.error "YOLO inference failed: Image file not found.", 0)
  else
    match retryRun http retries 1 with
    | (.error e, n) => (.error ("YOLO inference failed: " ++ e), n)
    | (.ok data, n) =>
      match data.detections with
      | none => (.error "YOLO inference failed: Invalid YOLO response.", n)
      | some _ => (.ok data, n)

/-- `runResNet(imagePath)`, same shape as `runYOLO`; the response is valid
iff `severity_level` is a non-empty string. -/
def runResNet (fileExists : Bool) (http : Nat → Except String ResnetRaw)
    (retries : Nat) : Except String ResnetRaw × Nat :=
  if !fileExists then
    (.error "ResNet inference failed: Image file not found.", 0)
  else
    match retryRun http retries 1 with
    | (.error e, n) => (.error ("ResNet inference failed: " ++ e), n)
    | (.ok data, n) =>
      match data.severity_level with
      | none => (.error "ResNet inference failed: Invalid ResNet response.", n)
      | some s =>
        if s = "" then (.error "ResNet inference failed: Invalid ResNet response.", n)
        else (.ok data, n)

/-! ## Diagnosis controller (src/controllers/diagnosisController.js) -/

/-- `createDiagnosis` (diagnosisController.js lines 37-102). The two external
inference outcomes are parameters (the resolved/rejected values of the
`Promise.all`); `now` is `Date.now()` at persist time. Returns the HTTP
status sent and the resulting DB state. A rejected `Promise.all` (either
inference failing) and a null populated patient both land in the catch block
as a 500 with no mutation. -/
def createDiagnosis (db : DB) (userId imgId : Nat) (notes : Option String)
    (yolo : Except String YoloRaw) (resnet : Except String ResnetRaw)
    (now : Nat) : Nat × DB :=
  match findImage db imgId with
  | none => (404, db)
  | some img =>
    match findPatient db img.patientId with
    | none => (500, db)
    | some p =>
      if p.doctorId != userId then (403, db)
      else if (findDiagByImage db imgId).isSome then (400, db)
      else
        match yolo, resnet with
        | .ok y, .ok r =>
          match y.detections with
          | none => (500, db)
          | some dets =>
            match r.severity_level with
            | none => (500, db)
            | some sev =>
              if sev = "" then (500, db)
              else
                let img2 := { img with yoloOutputPath := y.output_image }
                let db2 := { db with images := saveImage db.images img2 }
                let d : Diagnosis :=
                  { id := freshDiagId db, retinalImageId := imgId,
                    yoloDetections := dets, severityLevel := sev,
                    notes := notes, diagnosedAt := now }
                (201, { db2 with diagnoses := db2.diagnoses ++ [d] })
        | _, _ => (500, db)

/-- `getDiagnosisById` (diagnosisController.js lines 163-212). A null link
anywhere in the populated chain falls into the same branch as an ownership
mismatch and returns 403. Returns the HTTP status. -/
def getDiagnosisById (db : DB) (userId did : Nat) : Nat :=
  match findDiag db did with
  | none => 404
  | some d =>
    match findImage db d.retinalImageId with
    | none => 403
    | some img =>
      match findPatient db img.patientId with
      | none => 403
      | some p => if p.doctorId == userId then 200 else 403

/-- `updateDiagnosis` (diagnosisController.js lines 215-275). `notes = none`
models an omitted `notes` field (`notes !== undefined` is false). -/
def updateDiagnosis (db : DB) (userId did : Nat) (notes : Option String) :
    Nat × DB :=
  match findDiag db did with
  | none => (404, db)
  | some d =>
    match findImage db d.retinalImageId with
    | none => (403, db)
    | some img =>
      match findPatient db img.patientId with
      | none => (403, db)
      | some p =>
        if p.doctorId == userId then
          let d2 := { d with notes := match notes with
                                      | some n => some n
                                      | none => d.notes }
          (200, { db with diagnoses := saveDiag db.diagnoses d2 })
        else (403, db)

/-- `isMoreSevere` (diagnosisController.js lines 505-508): the JS object
lookup yields `undefined` for a string outside the scale, and any `>`
comparison with `undefined` is false (NaN semantics). -/
def severityOrder (s : String) : Option Nat :=
  if s = "normal" then some 0
  else if s = "low" then some 1
  else if s = "medium" then some 2
  else if s = "high" then some 3
  else if s = "severe" then some 4
  else none

/-- `isMoreSevere(newSeverity, oldSeverity)`. -/
def isMoreSevere (newSeverity oldSeverity : String) : Bool :=
  match severityOrder newSeverity, severityOrder oldSeverity with
  | some a, some b => b < a
  | _, _ => false

/-- The per-entry update of `patientSeverityMap` in `getPatientsBySeverity`
(diagnosisController.js lines 414-423):
`if (!map[pid] || isMoreSevere(cur, map[pid])) map[pid] = cur`.
The map is an association list keyed by patient id. -/
def alLookup (pid : Nat) : List (Nat × String) → Option String
  | [] => none
  | (k, v) :: rest => if k == pid then some v else alLookup pid rest

/-- Overwrite the entry for a present key in the association map. -/
def alSet (pid : Nat) (s : String) : List (Nat × String) → List (Nat × String)
  | [] => []
  | (k, v) :: rest =>
    if k == pid then (k, s) :: rest else (k, v) :: alSet pid s rest

/-- One `forEach` body iteration of `getPatientsBySeverity`: `e` is the
(patient id, severityLevel) pair of one diagnosis surviving the
`filter((d) => d.retinalImageId)` step. -/
def mapStep (m : List (Nat × String)) (e : Nat × String) : List (Nat × String) :=
  match alLookup e.1 m with
  | none => m ++ [(e.1, e.2)]
  | some cur => if isMoreSevere e.2 cur then alSet e.1 e.2 m else m

/-- `patientSeverityMap` as built by `getPatientsBySeverity` over the
doctor's diagnoses in list order. -/
def patientSeverityMap (diags : List (Nat × String)) : List (Nat × String) :=
  diags.foldl mapStep []

/-! ## Retinal-image controller (second half of diagnosisController.js file) -/

/-- `getRetinalImageById` (lines 684-716). A null populated patient makes
`retinalImage.patientId.doctorId` throw, caught as a 500. -/
def getRetinalImageById (db : DB) (userId iid : Nat) : Nat :=
  match findImage db iid with
  | none => 404
  | some img =>
    match findPatient db img.patientId with
    | none => 500
    | some p => if p.doctorId == userId then 200 else 403

/-- The multer-parsed upload. -/
structure UploadedFile where
  path : String
  mimetype : String
  filename : String
deriving DecidableEq, Repr

/-- `allowedTypes` in `uploadRetinalImage`. -/
def allowedTypes : List String := ["image/jpeg", "image/png", "image/jpg"]

/-- `fs.unlink(p)` on the filesystem modelled as the set of present paths. -/
def unlinkFile (fsPaths : List String) (p : String) : List String :=
  fsPaths.filter (fun q => q != p)

/-- `uploadRetinalImage` (lines 564-626). `fsPaths` is the set of files on
disk after multer ran; `createFails` models `RetinalImage.create` throwing
(the unexpected-error path), whose catch block best-effort unlinks the file.
Returns (status, DB, filesystem). -/
def uploadRetinalImage (db : DB) (fsPaths : List String) (userId patientId : Nat)
    (file : Option UploadedFile) (createFails : Bool) :
    Nat × DB × List String :=
  match file with
  | none => (400, db, fsPaths)
  | some f =>
    if !(allowedTypes.contains f.mimetype) then
      (400, db, unlinkFile fsPaths f.path)
    else
      match findPatient db patientId with
      | none => (404, db, unlinkFile fsPaths f.path)
      | some p =>
        if p.doctorId != userId then (403, db, unlinkFile fsPaths f.path)
        else if !(fsPaths.contains f.path) then (500, db, fsPaths)
        else if createFails then (500, db, unlinkFile fsPaths f.path)
        else
          let img : RetinalImage :=
            { id := freshImageId db, patientId := patientId,
              uploadedBy := userId,
              originalImagePath := "uploads/input/" ++ f.filename,
              yoloOutputPath := none }
          (201, { db with images := db.images ++ [img] }, fsPaths)

/-! ## Patient controller (src/unnamed/part_001) -/

/-- `getPatientById` (lines 198-215): the Mongo query is
`Patient.findOne({ _id: id, doctorId: req.user.id })`, so ownership is part
of the query filter. -/
def getPatientById (db : DB) (userId pid : Nat) : Nat :=
  match db.patients.find? (fun p => p.id == pid && p.doctorId == userId) with
  | none => 404
  | some _ => 200

/-- `deletePatient` (lines 267-292): the image-dependency guard runs first
and ignores ownership; the delete itself is
`Patient.findOneAndDelete({ _id: id, doctorId: req.user.id })`. -/
def deletePatient (db : DB) (userId pid : Nat) : Nat × DB :=
  if (db.images.filter (fun i => i.patientId == pid)).length > 0 then
    (400, db)
  else
    match db.patients.find? (fun p => p.id == pid && p.doctorId == userId) with
    | none => (404, db)
    | some _ =>
      (200, { db with
              patients := db.patients.filter
                (fun p => !(p.id == pid && p.doctorId == userId)) })

/-! ## Recommendation controller (src/controllers/recommendationController.js) -/

/-- The requesting authenticated user (`req.user`). -/
structure ReqUser where
  id : Nat
  role : String
deriving DecidableEq, Repr

/-- The Gemini response as probed by the controller: `text` is the top-level
`response.text` field, `nestedText` is `response.response.text`. `none`
models an absent field; JS truthiness makes an empty string count as absent
too. -/
structure GenResp where
  text : Option String
  nestedText : Option String
deriving DecidableEq, Repr

/-- JS string truthiness for an optional string field. -/
def truthyStr : Option String → Bool
  | none => false
  | some s => s != ""

/-- JS `String.prototype.slice(0, n)`. -/
def jsSlice (s : String) (n : Nat) : String :=
  String.mk (s.data.take n)

/-- JS `String.prototype.trim()`: strip leading and trailing whitespace. -/
def jsTrim (s : String) : String :=
  String.mk
    (((s.data.dropWhile Char.isWhitespace).reverse.dropWhile
        Char.isWhitespace).reverse)

/-- The text-extraction ladder of `generateRecommendation` (lines 77-89):
top-level `text`, else nested `response.text`, else the fixed fallback. -/
def extractRecText (resp : GenResp) : String :=
  if truthyStr resp.text then jsTrim (resp.text.getD "")
  else if truthyStr resp.nestedText then jsTrim (resp.nestedText.getD "")
  else "No recommendation generated."

/-- `generateRecommendation` (recommendationController.js lines 20-119).
`resp` is the external Gemini reply; `now`/`freshId` stand for `Date.now()`
and the minted `_id`. The controller checks only `req.user.role` and the
existence of the diagnosis and its retinal image before persisting. -/
def generateRecommendation (db : DB) (user : ReqUser) (diagId : Nat)
    (resp : GenResp) (now freshId : Nat) : Nat × DB :=
  if user.role != "doctor" then (403, db)
  else
    match findDiag db diagId with
    | none => (404, db)
    | some d =>
      match findImage db d.retinalImageId with
      | none => (404, db)
      | some img =>
        let txt := jsSlice (extractRecText resp) 1000
        let r : Recommendation :=
          { id := freshId, diagnosisId := diagId, patientId := img.patientId,
            recommendationText := txt, createdBy := user.id, createdAt := now }
        (201, { db with recommendations := db.recommendations ++ [r] })

/-! ## Helper predicates and concrete fixtures -/

/-- Whether an `Except` outcome is a success. -/
def exceptOk : Except String α → Bool
  | .ok _ => true
  | .error _ => false

/-- An endpoint whose every attempt fails with a network error. -/
def alwaysFailingEndpoint : Nat → Except String YoloRaw :=
  fun _ => .error "network error"

/-- Patient 10, owned by doctor 1. -/
def pat10 : Patient := { id := 10, doctorId := 1 }

/-- Retinal image 20 of patient 10. -/
def img20 : RetinalImage :=
  { id := 20, patientId := 10, uploadedBy := 1,
    originalImagePath := "uploads/input/a.png",
    yoloOutputPath := some "/static/a.png" }

/-- Diagnosis 30 on image 20. -/
def diag30 : Diagnosis :=
  { id := 30, retinalImageId := 20, yoloDetections := [],
    severityLevel := "low", notes := some "n", diagnosedAt := 0 }

/-- A one-doctor fixture: doctor 1 owns patient 10, image 20, diagnosis 30;
patient 11 (also doctor 1's) has no images. -/
def dbOwned : DB :=
  { patients := [pat10, { id := 11, doctorId := 1 }],
    images := [img20],
    diagnoses := [diag30],
    recommendations := [] }

/-- A Gemini reply with a top-level text field. -/
def geminiResp : GenResp :=
  { text := some "Prescribe corrective lenses.", nestedText := none }

/-- A diagnosis whose image link (20) will dangle in `dbBrokenChain`. -/
def diagDangling : Diagnosis :=
  { id := 30, retinalImageId := 20, yoloDetections := [],
    severityLevel := "low", notes := none, diagnosedAt := 0 }

/-- A fixture whose diagnosis 30 references image 20 that does not exist. -/
def dbBrokenChain : DB :=
  { patients := [], images := [], diagnoses := [diagDangling],
    recommendations := [] }

/-! ## C1: atomicity of diagnosis creation under partial inference failure -/

/-- C1. If exactly one of the two inference calls of a create-diagnosis
request succeeds and the other fails, the whole `Promise.all` rejects before
any write is issued: the database is unchanged, so no Diagnosis exists for
the image afterwards (when none existed before) and the image's
`yoloOutputPath` is exactly its prior value. -/
theorem createDiagnosis_atomic_on_partial_inference_failure
    (db : DB) (userId imgId : Nat) (notes : Option String)
    (yolo : Except String YoloRaw) (resnet : Except String ResnetRaw)
    (now : Nat)
    (h : (exceptOk yolo && !exceptOk resnet) ||
         (!exceptOk yolo && exceptOk resnet) = true) :
    (createDiagnosis db userId imgId notes yolo resnet now).2 = db ∧
    (findDiagByImage db imgId = none →
      findDiagByImage (createDiagnosis db userId imgId notes yolo resnet now).2
        imgId = none) ∧
    (findImage (createDiagnosis db userId imgId notes yolo resnet now).2
        imgId).map RetinalImage.yoloOutputPath
      = (findImage db imgId).map RetinalImage.yoloOutputPath := by
  have hdb : (createDiagnosis db userId imgId notes yolo resnet now).2 = db := by
    unfold createDiagnosis
    cases yolo with
    | error e =>
      cases resnet with
      | error e2 => simp [exceptOk] at h
      | ok r =>
        repeat' split
        all_goals try rfl
        all_goals simp_all
    | ok y =>
      cases resnet with
      | error e2 =>
        repeat' split
        all_goals try rfl
        all_goals simp_all
      | ok r => simp [exceptOk] at h
  refine ⟨hdb, ?_, ?_⟩
  · intro h0; rw [hdb]; exact h0
  · rw [hdb]

/-- Witness for C1 at a concrete request: YOLO succeeds, ResNet fails. -/
theorem createDiagnosis_atomic_on_partial_inference_failure_witness :
    ((exceptOk (.ok { detections := some [], output_image := none } :
        Except String YoloRaw) &&
      !exceptOk (.error "ResNet inference failed: network error" :
        Except String ResnetRaw)) ||
     (!exceptOk (.ok { detections := some [], output_image := none } :
        Except String YoloRaw) &&
      exceptOk (.error "ResNet inference failed: network error" :
        Except String ResnetRaw)) = true) ∧
    ((createDiagnosis dbOwned 1 20 none
        (.ok { detections := some [], output_image := none })
        (.error "ResNet inference failed: network error") 7).2 = dbOwned ∧
     (findDiagByImage dbOwned 20 = none →
       findDiagByImage (createDiagnosis dbOwned 1 20 none
          (.ok { detections := some [], output_image := none })
          (.error "ResNet inference failed: network error") 7).2 20 = none) ∧
     (findImage (createDiagnosis dbOwned 1 20 none
          (.ok { detections := some [], output_image := none })
          (.error "ResNet inference failed: network error") 7).2
        20).map RetinalImage.yoloOutputPath
       = (findImage dbOwned 20).map RetinalImage.yoloOutputPath) :=
  ⟨by decide,
   createDiagnosis_atomic_on_partial_inference_failure dbOwned 1 20 none
     (.ok { detections := some [], output_image := none })
     (.error "ResNet inference failed: network error") 7 (by decide)⟩

/-! ## C3: retry attempt count against an always-failing endpoint -/

/-- C3 counterexample. With the default `MAX_RETRIES = 3`, an endpoint whose
every attempt fails sees 4 HTTP attempts (async-retry's `retries` option
counts retries after the initial attempt), not 3 as the claim states; the
final error does name the model. -/
theorem runYOLO_four_attempts_counterexample :
    (runYOLO true alwaysFailingEndpoint MAX_RETRIES).2 = 4 ∧
    ¬ (runYOLO true alwaysFailingEndpoint MAX_RETRIES).2 = 3 ∧
    (runYOLO true alwaysFailingEndpoint MAX_RETRIES).1 =
      .error "YOLO inference failed: network error" :=
  ⟨rfl, by decide, rfl⟩

/-- Against an endpoint that always fails with a retry-eligible error, the
retry loop issues exactly `fuel + 1` attempts starting from attempt `k`
relative... precisely: `retryRun` started with `fuel` retries at attempt `k`
ends at attempt `fuel + k` with the last error. -/
theorem retryRun_exhausts (f : Nat → Except String α)
    (h : ∀ k, ∃ e, f k = .error e) :
    ∀ fuel k, ∃ e, retryRun f fuel k = (.error e, fuel + k) := by
  intro fuel
  induction fuel with
  | zero =>
    intro k
    obtain ⟨e, he⟩ := h k
    exact ⟨e, by simp [retryRun, he]⟩
  | succ n ih =>
    intro k
    obtain ⟨e, he⟩ := h k
    obtain ⟨e2, he2⟩ := ih (k + 1)
    refine ⟨e2, ?_⟩
    have harith : n + 1 + k = n + (k + 1) := by omega
    rw [retryRun, he, harith]
    exact he2

/-- C3 amended. Against an endpoint whose every attempt fails with a
retry-eligible error, each inference call issues exactly `maxRetries + 1`
attempts in total (the initial attempt plus `maxRetries` retries; 4 at the
default of 3) and then fails with a single inference-failed error naming
the model. -/
theorem runInference_retry_exhaustion
    (retries : Nat) (f : Nat → Except String YoloRaw)
    (g : Nat → Except String ResnetRaw)
    (hf : ∀ k, ∃ e, f k = .error e) (hg : ∀ k, ∃ e, g k = .error e) :
    (runYOLO true f retries).2 = retries + 1 ∧
    (∃ e, (runYOLO true f retries).1 =
      .error ("YOLO inference failed: " ++ e)) ∧
    (runResNet true g retries).2 = retries + 1 ∧
    (∃ e, (runResNet true g retries).1 =
      .error ("ResNet inference failed: " ++ e)) := by
  obtain ⟨e1, h1⟩ := retryRun_exhausts f hf retries 1
  obtain ⟨e2, h2⟩ := retryRun_exhausts g hg retries 1
  refine ⟨?_, ⟨e1, ?_⟩, ?_, ⟨e2, ?_⟩⟩ <;>
    simp [runYOLO, runResNet, h1, h2]

/-- Witness for the amended C3 at the default configuration. -/
theorem runInference_retry_exhaustion_witness :
    (runYOLO true alwaysFailingEndpoint 3).2 = 3 + 1 ∧
    (∃ e, (runYOLO true alwaysFailingEndpoint 3).1 =
      .error ("YOLO inference failed: " ++ e)) ∧
    (runResNet true (fun _ => .error "timeout") 3).2 = 3 + 1 ∧
    (∃ e, (runResNet true (fun _ => .error "timeout") 3).1 =
      .error ("ResNet inference failed: " ++ e)) :=
  runInference_retry_exhaustion 3 alwaysFailingEndpoint
    (fun _ => .error "timeout")
    (fun _ => ⟨"network error", rfl⟩) (fun _ => ⟨"timeout", rfl⟩)

/-! ## C6: a structurally invalid response is not retried -/

/-- C6. If the first HTTP attempt of an inference call succeeds but the body
fails shape validation (missing/ill-typed `detections` for detect, missing
or non-string `severity_level` for classify), the call fails immediately
with the invalid-response error after that single attempt: no further
attempts are issued, whatever the retry budget. -/
theorem invalidResponse_not_retried
    (retries : Nat) (f : Nat → Except String YoloRaw)
    (g : Nat → Except String ResnetRaw) (ry : YoloRaw) (rr : ResnetRaw)
    (hf : f 1 = .ok ry) (hdet : ry.detections = none)
    (hg : g 1 = .ok rr) (hsev : rr.severity_level = none) :
    runYOLO true f retries =
      (.error "YOLO inference failed: Invalid YOLO response.", 1) ∧
    runResNet true g retries =
      (.error "ResNet inference failed: Invalid ResNet response.", 1) := by
  constructor
  · unfold runYOLO
    rw [retryRun, hf]
    simp [hdet]
  · unfold runResNet
    rw [retryRun, hg]
    simp [hsev]

/-- A YOLO body with no `detections` array (structure validation fails). -/
def invalidYoloBody : YoloRaw :=
  { detections := none, output_image := some "/static/x.png" }

/-- A ResNet body with no string `severity_level`. -/
def invalidResnetBody : ResnetRaw := { severity_level := none }

/-- An endpoint that always answers HTTP 200 with the invalid YOLO body. -/
def invalidYoloEndpoint : Nat → Except String YoloRaw :=
  fun _ => .ok invalidYoloBody

/-- An endpoint that always answers HTTP 200 with the invalid ResNet body. -/
def invalidResnetEndpoint : Nat → Except String ResnetRaw :=
  fun _ => .ok invalidResnetBody

/-- Witness for C6: both endpoints return structurally invalid bodies on
their first attempt. -/
theorem invalidResponse_not_retried_witness :
    (invalidYoloEndpoint 1 = .ok invalidYoloBody) ∧
    (invalidYoloBody.detections = none) ∧
    (invalidResnetEndpoint 1 = .ok invalidResnetBody) ∧
    (invalidResnetBody.severity_level = none) ∧
    (runYOLO true invalidYoloEndpoint 3 =
      (.error "YOLO inference failed: Invalid YOLO response.", 1) ∧
     runResNet true invalidResnetEndpoint 3 =
      (.error "ResNet inference failed: Invalid ResNet response.", 1)) :=
  ⟨rfl, rfl, rfl, rfl,
   invalidResponse_not_retried 3 invalidYoloEndpoint invalidResnetEndpoint
     invalidYoloBody invalidResnetBody rfl rfl rfl rfl⟩

/-! ## C2: ownership chain on every read/write, including recommendations -/

/-- C2 counterexample. Diagnosis 30's patient is owned by doctor 1, the
requesting user is doctor 2, yet `generateRecommendation` (which reads the
diagnosis and its image) answers 201 and persists a Recommendation: the
ownership chain is not checked on this operation. -/
theorem generateRecommendation_no_ownership_check_counterexample :
    findDiag dbOwned 30 = some diag30 ∧
    (findImage dbOwned 20).map RetinalImage.patientId = some 10 ∧
    (findPatient dbOwned 10).map Patient.doctorId = some 1 ∧
    (1 : Nat) ≠ 2 ∧
    (generateRecommendation dbOwned { id := 2, role := "doctor" } 30
      geminiResp 5 99).1 = 201 ∧
    (generateRecommendation dbOwned { id := 2, role := "doctor" } 30
      geminiResp 5 99).2.recommendations.length = 1 := by
  decide

/-- C2 amended. The ownership-chain check is enforced by the diagnosis
controller (create, read-by-id and update of a Diagnosis answer 403 and
leave the database unchanged when the owning doctor of the chain differs
from the requesting user), but recommendation generation performs no
ownership check: for any user with role doctor, once the diagnosis and its
image exist it answers 201 and persists one new Recommendation regardless
of who owns the patient. -/
theorem ownership_enforcement_amended :
    (∀ (db : DB) (userId did : Nat) (notes : Option String) (d : Diagnosis)
       (img : RetinalImage) (p : Patient),
      findDiag db did = some d →
      findImage db d.retinalImageId = some img →
      findPatient db img.patientId = some p →
      p.doctorId ≠ userId →
      getDiagnosisById db userId did = 403 ∧
      updateDiagnosis db userId did notes = (403, db)) ∧
    (∀ (db : DB) (userId imgId : Nat) (notes : Option String)
       (yolo : Except String YoloRaw) (resnet : Except String ResnetRaw)
       (now : Nat) (img : RetinalImage) (p : Patient),
      findImage db imgId = some img →
      findPatient db img.patientId = some p →
      p.doctorId ≠ userId →
      createDiagnosis db userId imgId notes yolo resnet now = (403, db)) ∧
    (∀ (db : DB) (user : ReqUser) (diagId : Nat) (resp : GenResp)
       (now fid : Nat) (d : Diagnosis) (img : RetinalImage),
      user.role = "doctor" →
      findDiag db diagId = some d →
      findImage db d.retinalImageId = some img →
      (generateRecommendation db user diagId resp now fid).1 = 201 ∧
      (generateRecommendation db user diagId resp now fid).2.recommendations.length
        = db.recommendations.length + 1) := by
  refine ⟨?_, ?_, ?_⟩
  · intro db userId did notes d img p h1 h2 h3 hne
    have hb : (p.doctorId == userId) = false := by
      simpa using hne
    constructor
    · simp [getDiagnosisById, h1, h2, h3, hb]
    · simp [updateDiagnosis, h1, h2, h3, hb]
  · intro db userId imgId notes yolo resnet now img p h1 h2 hne
    have hb : (p.doctorId != userId) = true := by
      simpa using hne
    simp [createDiagnosis, h1, h2, hb]
  · intro db user diagId resp now fid d img hrole h1 h2
    have hb : (user.role != "doctor") = false := by
      simpa using hrole
    constructor
    · simp [generateRecommendation, hb, h1, h2]
    · simp [generateRecommendation, hb, h1, h2]

/-- Witness for the amended C2: doctor 2 against doctor 1's records. -/
theorem ownership_enforcement_amended_witness :
    (findDiag dbOwned 30 = some diag30 ∧
     findImage dbOwned diag30.retinalImageId = some img20 ∧
     findPatient dbOwned img20.patientId = some pat10 ∧
     pat10.doctorId ≠ 2) ∧
    (getDiagnosisById dbOwned 2 30 = 403 ∧
     updateDiagnosis dbOwned 2 30 none = (403, dbOwned)) ∧
    (createDiagnosis dbOwned 2 20 none
      (.ok { detections := some [], output_image := none })
      (.ok { severity_level := some "high" }) 7 = (403, dbOwned)) ∧
    ((generateRecommendation dbOwned { id := 2, role := "doctor" } 30
        geminiResp 5 99).1 = 201 ∧
     (generateRecommendation dbOwned { id := 2, role := "doctor" } 30
        geminiResp 5 99).2.recommendations.length
       = dbOwned.recommendations.length + 1) :=
  ⟨⟨by decide, by decide, by decide, by decide⟩,
   ownership_enforcement_amended.1 dbOwned 2 30 none diag30 img20 pat10
     (by decide) (by decide) (by decide) (by decide),
   ownership_enforcement_amended.2.1 dbOwned 2 20 none
     (.ok { detections := some [], output_image := none })
     (.ok { severity_level := some "high" }) 7 img20 pat10
     (by decide) (by decide) (by decide),
   ownership_enforcement_amended.2.2 dbOwned { id := 2, role := "doctor" } 30
     geminiResp 5 99 diag30 img20 (by decide) (by decide) (by decide)⟩

/-! ## C4: Denied vs NotFound for unowned existing resources -/

/-- C4 counterexample. Patient 10 exists and is owned by doctor 1, yet
doctor 2's read of that patient answers 404, not 403: the patient query
folds the ownership check into the lookup filter. -/
theorem getPatientById_unowned_counterexample :
    findPatient dbOwned 10 = some pat10 ∧
    pat10.doctorId = 1 ∧
    (1 : Nat) ≠ 2 ∧
    getPatientById dbOwned 2 10 = 404 ∧
    ¬ getPatientById dbOwned 2 10 = 403 := by
  decide

/-- C4 amended. For Diagnosis and RetinalImage resources an existing but
unowned resource yields 403, distinct from 404; but the Patient routes
scope their Mongo query by the requesting doctor, so an existing unowned
patient yields 404 on read and on delete (when it has no images),
indistinguishable from a missing patient. -/
theorem denied_vs_notfound_amended :
    (∀ (db : DB) (userId did : Nat) (d : Diagnosis) (img : RetinalImage)
       (p : Patient),
      findDiag db did = some d →
      findImage db d.retinalImageId = some img →
      findPatient db img.patientId = some p →
      p.doctorId ≠ userId →
      getDiagnosisById db userId did = 403) ∧
    (∀ (db : DB) (userId iid : Nat) (img : RetinalImage) (p : Patient),
      findImage db iid = some img →
      findPatient db img.patientId = some p →
      p.doctorId ≠ userId →
      getRetinalImageById db userId iid = 403) ∧
    (∀ (db : DB) (userId pid : Nat) (p : Patient),
      findPatient db pid = some p →
      (∀ q ∈ db.patients, q.id = pid → q.doctorId ≠ userId) →
      getPatientById db userId pid = 404) ∧
    (∀ (db : DB) (userId pid : Nat) (p : Patient),
      findPatient db pid = some p →
      (∀ q ∈ db.patients, q.id = pid → q.doctorId ≠ userId) →
      (db.images.filter (fun i => i.patientId == pid)).length = 0 →
      deletePatient db userId pid = (404, db)) := by
  refine ⟨?_, ?_, ?_, ?_⟩
  · intro db userId did d img p h1 h2 h3 hne
    have hb : (p.doctorId == userId) = false := by simpa using hne
    simp [getDiagnosisById, h1, h2, h3, hb]
  · intro db userId iid img p h1 h2 hne
    have hb : (p.doctorId == userId) = false := by simpa using hne
    simp [getRetinalImageById, h1, h2, hb]
  · intro db userId pid p _ hall
    have hnone : db.patients.find?
        (fun q => q.id == pid && q.doctorId == userId) = none := by
      rw [List.find?_eq_none]
      intro q hq
      simp only [Bool.and_eq_true, beq_iff_eq, not_and]
      intro hid
      exact hall q hq hid
    simp [getPatientById, hnone]
  · intro db userId pid p _ hall himg
    have hnone : db.patients.find?
        (fun q => q.id == pid && q.doctorId == userId) = none := by
      rw [List.find?_eq_none]
      intro q hq
      simp only [Bool.and_eq_true, beq_iff_eq, not_and]
      intro hid
      exact hall q hq hid
    simp [deletePatient, himg, hnone]

/-- Witness for the amended C4: doctor 2 against doctor 1's records
(patient 11 is the one without images for the delete case). -/
theorem denied_vs_notfound_amended_witness :
    (findDiag dbOwned 30 = some diag30 ∧
     findImage dbOwned diag30.retinalImageId = some img20 ∧
     findPatient dbOwned img20.patientId = some pat10 ∧
     pat10.doctorId ≠ 2 ∧
     findPatient dbOwned 11 = some { id := 11, doctorId := 1 } ∧
     (∀ q ∈ dbOwned.patients, q.id = 11 → q.doctorId ≠ 2) ∧
     (dbOwned.images.filter (fun i => i.patientId == 11)).length = 0) ∧
    getDiagnosisById dbOwned 2 30 = 403 ∧
    getRetinalImageById dbOwned 2 20 = 403 ∧
    getPatientById dbOwned 2 11 = 404 ∧
    deletePatient dbOwned 2 11 = (404, dbOwned) :=
  ⟨⟨by decide, by decide, by decide, by decide, by decide, by decide,
    by decide⟩,
   denied_vs_notfound_amended.1 dbOwned 2 30 diag30 img20 pat10
     (by decide) (by decide) (by decide) (by decide),
   denied_vs_notfound_amended.2.1 dbOwned 2 20 img20 pat10
     (by decide) (by decide) (by decide),
   denied_vs_notfound_amended.2.2.1 dbOwned 2 11 { id := 11, doctorId := 1 }
     (by decide) (by decide),
   denied_vs_notfound_amended.2.2.2 dbOwned 2 11 { id := 11, doctorId := 1 }
     (by decide) (by decide) (by decide)⟩

/-! ## C5: broken ownership chain on reading a diagnosis -/

/-- C5 counterexample. Diagnosis 30 references image 20 which does not
exist; reading it by id answers 403 (the missing link falls into the same
branch as an ownership mismatch), not 404 as the claim states. -/
theorem getDiagnosisById_broken_chain_counterexample :
    findDiag dbBrokenChain 30 = some diagDangling ∧
    findImage dbBrokenChain 20 = none ∧
    getDiagnosisById dbBrokenChain 1 30 = 403 ∧
    ¬ getDiagnosisById dbBrokenChain 1 30 = 404 := by
  decide

/-- C5 amended. A broken ownership chain (the diagnosis's image missing, or
the image's patient missing) on a read-by-id of an existing diagnosis is
reported as 403, merged with the unauthorized case; only a missing
Diagnosis itself yields 404. -/
theorem getDiagnosisById_broken_chain_denied
    (db : DB) (userId did : Nat) (d : Diagnosis)
    (h1 : findDiag db did = some d)
    (h2 : findImage db d.retinalImageId = none ∨
          ∃ img, findImage db d.retinalImageId = some img ∧
                 findPatient db img.patientId = none) :
    getDiagnosisById db userId did = 403 := by
  rcases h2 with h2 | ⟨img, h2, h3⟩
  · simp [getDiagnosisById, h1, h2]
  · simp [getDiagnosisById, h1, h2, h3]

/-- Witness for the amended C5 on the broken-chain fixture. -/
theorem getDiagnosisById_broken_chain_denied_witness :
    (findDiag dbBrokenChain 30 = some diagDangling ∧
     findImage dbBrokenChain 20 = none) ∧
    getDiagnosisById dbBrokenChain 1 30 = 403 :=
  ⟨⟨by decide, by decide⟩,
   getDiagnosisById_broken_chain_denied dbBrokenChain 1 30 diagDangling
     (by decide) (Or.inl (by decide))⟩

/-! ## C8: recommendation truncation -/

/-- `slice(0, n)` keeps at most `n` characters. -/
theorem jsSlice_length_le (s : String) (n : Nat) : (jsSlice s n).length ≤ n := by
  show (s.data.take n).length ≤ n
  simp [List.length_take]

/-- C8. Whenever `generateRecommendation` persists a recommendation, the
persisted `recommendationText` is the fully extracted generation text
truncated to at most 1000 characters as the final step: it equals
`slice(0, 1000)` of the extracted text and its length is at most 1000. -/
theorem generateRecommendation_truncates
    (db : DB) (user : ReqUser) (diagId : Nat) (resp : GenResp) (now fid : Nat)
    (h : (generateRecommendation db user diagId resp now fid).1 = 201) :
    ∃ r, (generateRecommendation db user diagId resp now fid).2.recommendations
        = db.recommendations ++ [r] ∧
      r.recommendationText = jsSlice (extractRecText resp) 1000 ∧
      r.recommendationText.length ≤ 1000 := by
  by_cases hrole : (user.role != "doctor") = true
  · simp only [generateRecommendation, hrole, if_true] at h
    exact absurd h (by decide)
  · rw [Bool.not_eq_true] at hrole
    cases hd : findDiag db diagId with
    | none =>
      simp only [generateRecommendation, hrole, Bool.false_eq_true,
        if_false, hd] at h
      exact absurd h (by decide)
    | some d =>
      cases hi : findImage db d.retinalImageId with
      | none =>
        simp only [generateRecommendation, hrole, Bool.false_eq_true,
          if_false, hd, hi] at h
        exact absurd h (by decide)
      | some img =>
        refine ⟨{ id := fid, diagnosisId := diagId, patientId := img.patientId,
                  recommendationText := jsSlice (extractRecText resp) 1000,
                  createdBy := user.id, createdAt := now }, ?_, rfl, ?_⟩
        · simp only [generateRecommendation, hrole, Bool.false_eq_true,
            if_false, hd, hi]
        · exact jsSlice_length_le _ _

/-- A Gemini reply whose text field has exactly 1500 characters. -/
def longGeminiResp : GenResp :=
  { text := some (String.mk (List.replicate 1500 'a')), nestedText := none }

/-- Trimming a run of a non-whitespace character changes nothing. -/
theorem jsTrim_replicate (n : Nat) (c : Char) (h : c.isWhitespace = false) :
    jsTrim (String.mk (List.replicate n c)) = String.mk (List.replicate n c) := by
  simp [jsTrim, List.dropWhile_replicate, h]

/-- The extracted text of the 1500-character reply is that text itself. -/
theorem extractRecText_longGeminiResp :
    extractRecText longGeminiResp = String.mk (List.replicate 1500 'a') := by
  have hne : String.mk (List.replicate 1500 'a') ≠ "" := by
    intro hcon
    have hlen := congrArg String.length hcon
    have h1 : (String.mk (List.replicate 1500 'a')).length = 1500 := by
      show (List.replicate 1500 'a').length = 1500
      rw [List.length_replicate]
    have h0 : ("" : String).length = 0 := rfl
    rw [h1, h0] at hlen
    exact absurd hlen (by decide)
  have htr : truthyStr (some (String.mk (List.replicate 1500 'a'))) = true := by
    show (String.mk (List.replicate 1500 'a') != "") = true
    exact bne_iff_ne.mpr hne
  have step1 : extractRecText longGeminiResp
      = jsTrim (String.mk (List.replicate 1500 'a')) := by
    dsimp only [extractRecText, longGeminiResp]
    rw [if_pos htr]
    rfl
  rw [step1]
  exact jsTrim_replicate 1500 'a' (by decide)

/-- Witness for C8: a 1500-character generated text is persisted as exactly
its first 1000 characters. -/
theorem generateRecommendation_truncates_witness :
    ((generateRecommendation dbOwned { id := 1, role := "doctor" } 30
        longGeminiResp 5 99).1 = 201) ∧
    (∃ r, (generateRecommendation dbOwned { id := 1, role := "doctor" } 30
        longGeminiResp 5 99).2.recommendations
        = dbOwned.recommendations ++ [r] ∧
      r.recommendationText = jsSlice (extractRecText longGeminiResp) 1000 ∧
      r.recommendationText.length ≤ 1000) ∧
    (extractRecText longGeminiResp).length = 1500 ∧
    jsSlice (extractRecText longGeminiResp) 1000
      = String.mk (List.replicate 1000 'a') := by
  have hstatus : (generateRecommendation dbOwned { id := 1, role := "doctor" }
      30 longGeminiResp 5 99).1 = 201 := rfl
  refine ⟨hstatus,
    generateRecommendation_truncates dbOwned { id := 1, role := "doctor" } 30
      longGeminiResp 5 99 hstatus, ?_, ?_⟩
  · rw [extractRecText_longGeminiResp]
    show (List.replicate 1500 'a').length = 1500
    rw [List.length_replicate]
  · rw [extractRecText_longGeminiResp]
    show String.mk ((List.replicate 1500 'a').take 1000)
      = String.mk (List.replicate 1000 'a')
    rw [List.take_replicate]
    rw [show (min 1000 1500 : Nat) = 1000 from by decide]

/-! ## C9: frame property of diagnosis update -/

/-- `find?` over a cons whose head satisfies the predicate. -/
theorem find?_head_true {α : Type} {p : α → Bool} (a : α) (l : List α)
    (h : p a = true) : List.find? p (a :: l) = some a := by
  simp [List.find?, h]

/-- `find?` over a cons whose head fails the predicate. -/
theorem find?_head_false {α : Type} {p : α → Bool} (a : α) (l : List α)
    (h : p a = false) : List.find? p (a :: l) = List.find? p l := by
  simp [List.find?, h]

/-- After `doc.save()` of the updated record, the lookup by the same id
finds exactly the updated record. -/
theorem find_saveDiag_self (l : List Diagnosis) (d d2 : Diagnosis) (i : Nat)
    (hfind : l.find? (fun x => x.id == i) = some d) (hid : d2.id = i) :
    (saveDiag l d2).find? (fun x => x.id == i) = some d2 := by
  induction l with
  | nil => simp [List.find?] at hfind
  | cons x xs ih =>
    have hstep : saveDiag (x :: xs) d2
        = (if x.id == d2.id then d2 else x) :: saveDiag xs d2 := rfl
    rw [hstep]
    by_cases hx : (x.id == i) = true
    · have hxi : x.id = i := by simpa using hx
      have hcond : (x.id == d2.id) = true := by simp [hxi, hid]
      rw [if_pos hcond]
      exact find?_head_true d2 (saveDiag xs d2) (by simp [hid])
    · have hxf : (x.id == i) = false := by
        rwa [Bool.not_eq_true] at hx
      have hcond : ¬ ((x.id == d2.id) = true) := by
        rw [hid]
        exact hx
      rw [if_neg hcond]
      rw [find?_head_false x (saveDiag xs d2) hxf]
      rw [find?_head_false x xs hxf] at hfind
      exact ih hfind

/-- Saving a record with a given id leaves lookups of every other id
unchanged. -/
theorem find_saveDiag_other (l : List Diagnosis) (d2 : Diagnosis) (i : Nat)
    (hne : d2.id ≠ i) :
    (saveDiag l d2).find? (fun x => x.id == i)
      = l.find? (fun x => x.id == i) := by
  induction l with
  | nil => rfl
  | cons x xs ih =>
    have hstep : saveDiag (x :: xs) d2
        = (if x.id == d2.id then d2 else x) :: saveDiag xs d2 := rfl
    rw [hstep]
    by_cases hrep : (x.id == d2.id) = true
    · have hxid : x.id = d2.id := by simpa using hrep
      have hx : (x.id == i) = false := by
        rw [hxid]
        simpa using hne
      have hd2i : (d2.id == i) = false := by simpa using hne
      rw [if_pos hrep]
      rw [find?_head_false d2 (saveDiag xs d2) hd2i,
          find?_head_false x xs hx]
      exact ih
    · rw [if_neg hrep]
      cases hx : (x.id == i) with
      | true =>
        rw [find?_head_true x (saveDiag xs d2) hx, find?_head_true x xs hx]
      | false =>
        rw [find?_head_false x (saveDiag xs d2) hx, find?_head_false x xs hx]
        exact ih

/-- C9. Every successful (200) diagnosis update changes at most the `notes`
field of the targeted diagnosis: `retinalImageId`, `yoloDetections`,
`severityLevel` and `diagnosedAt` are unchanged; an omitted `notes` leaves
`notes` unchanged, a provided one replaces it; every other diagnosis record
is untouched. -/
theorem updateDiagnosis_frame
    (db : DB) (userId did : Nat) (notes : Option String)
    (h : (updateDiagnosis db userId did notes).1 = 200) :
    ∃ d d2, findDiag db did = some d ∧
      findDiag (updateDiagnosis db userId did notes).2 did = some d2 ∧
      d2.retinalImageId = d.retinalImageId ∧
      d2.yoloDetections = d.yoloDetections ∧
      d2.severityLevel = d.severityLevel ∧
      d2.diagnosedAt = d.diagnosedAt ∧
      (notes = none → d2.notes = d.notes) ∧
      (∀ n, notes = some n → d2.notes = some n) ∧
      (∀ j, j ≠ did →
        findDiag (updateDiagnosis db userId did notes).2 j = findDiag db j) := by
  cases hd : findDiag db did with
  | none => simp [updateDiagnosis, hd] at h
  | some d =>
    cases hi : findImage db d.retinalImageId with
    | none => simp [updateDiagnosis, hd, hi] at h
    | some img =>
      cases hp : findPatient db img.patientId with
      | none => simp [updateDiagnosis, hd, hi, hp] at h
      | some p =>
        by_cases hown : (p.doctorId == userId) = true
        · have hdid : d.id = did := by
            have := List.find?_some hd
            simpa using this
          cases notes with
          | none =>
            refine ⟨d, d, rfl, ?_, rfl, rfl, rfl, rfl, fun _ => rfl,
                    ?_, ?_⟩
            · simp only [updateDiagnosis, hd, hi, hp, hown, if_true]
              exact find_saveDiag_self db.diagnoses d d did hd hdid
            · intro n hn
              exact absurd hn (by simp)
            · intro j hj
              simp only [updateDiagnosis, hd, hi, hp, hown, if_true]
              exact find_saveDiag_other db.diagnoses d j
                (by rw [hdid]; exact hj.symm)
          | some n =>
            refine ⟨d, { d with notes := some n }, rfl, ?_, rfl, rfl,
                    rfl, rfl, ?_, ?_, ?_⟩
            · simp only [updateDiagnosis, hd, hi, hp, hown, if_true]
              exact find_saveDiag_self db.diagnoses d
                { d with notes := some n } did hd hdid
            · intro hn
              exact absurd hn (by simp)
            · intro m hm
              cases hm
              rfl
            · intro j hj
              simp only [updateDiagnosis, hd, hi, hp, hown, if_true]
              exact find_saveDiag_other db.diagnoses
                { d with notes := some n } j (by
                  show d.id ≠ j
                  rw [hdid]
                  exact hj.symm)
        · rw [Bool.not_eq_true] at hown
          simp [updateDiagnosis, hd, hi, hp, hown] at h

/-- Witness for C9: doctor 1 updates diagnosis 30's notes. -/
theorem updateDiagnosis_frame_witness :
    ((updateDiagnosis dbOwned 1 30 (some "updated notes")).1 = 200) ∧
    (∃ d d2, findDiag dbOwned 30 = some d ∧
      findDiag (updateDiagnosis dbOwned 1 30 (some "updated notes")).2 30
        = some d2 ∧
      d2.retinalImageId = d.retinalImageId ∧
      d2.yoloDetections = d.yoloDetections ∧
      d2.severityLevel = d.severityLevel ∧
      d2.diagnosedAt = d.diagnosedAt ∧
      ((some "updated notes" : Option String) = none → d2.notes = d.notes) ∧
      (∀ n, (some "updated notes" : Option String) = some n →
        d2.notes = some n) ∧
      (∀ j, j ≠ 30 →
        findDiag (updateDiagnosis dbOwned 1 30 (some "updated notes")).2 j
          = findDiag dbOwned j)) :=
  ⟨by decide,
   updateDiagnosis_frame dbOwned 1 30 (some "updated notes") (by decide)⟩

/-! ## C10: rejected uploads leave no state -/

/-- Unlinking a path removes it from the filesystem. -/
theorem unlinkFile_removes (l : List String) (p : String) :
    p ∉ unlinkFile l p := by
  simp [unlinkFile, List.mem_filter]

/-- C10. Every upload request rejected after the file reached disk
(disallowed mimetype, patient not found, patient owned by another doctor)
and every upload failing on an unexpected persistence error deletes the
uploaded temporary file and creates no RetinalImage record. -/
theorem uploadRetinalImage_rejection_cleanup
    (db : DB) (fsPaths : List String) (userId patientId : Nat)
    (f : UploadedFile) (createFails : Bool)
    (hdisk : f.path ∈ fsPaths)
    (hrej : allowedTypes.contains f.mimetype = false ∨
            findPatient db patientId = none ∨
            (∃ p, findPatient db patientId = some p ∧ p.doctorId ≠ userId) ∨
            createFails = true) :
    (uploadRetinalImage db fsPaths userId patientId (some f) createFails).1
      ≠ 201 ∧
    f.path ∉
      (uploadRetinalImage db fsPaths userId patientId (some f) createFails).2.2 ∧
    (uploadRetinalImage db fsPaths userId patientId (some f) createFails).2.1.images
      = db.images := by
  by_cases hmime : f.mimetype ∈ allowedTypes
  · cases hp : findPatient db patientId with
    | none =>
      refine ⟨?_, ?_, ?_⟩ <;>
        simp [uploadRetinalImage, hmime, hp, unlinkFile_removes]
    | some p =>
      by_cases hown : p.doctorId = userId
      · have hcf : createFails = true := by
          rcases hrej with h1 | h1 | ⟨q, hq1, hq2⟩ | h1
          · simp at h1
            exact absurd hmime h1
          · rw [hp] at h1
            exact absurd h1 (by simp)
          · rw [hp] at hq1
            cases hq1
            exact absurd hown hq2
          · exact h1
        refine ⟨?_, ?_, ?_⟩ <;>
          simp [uploadRetinalImage, hmime, hp, hown, hcf, hdisk,
                unlinkFile_removes]
      · refine ⟨?_, ?_, ?_⟩ <;>
          simp [uploadRetinalImage, hmime, hp, hown, unlinkFile_removes]
  · refine ⟨?_, ?_, ?_⟩ <;>
      simp [uploadRetinalImage, hmime, unlinkFile_removes]

/-- Witness for C10: doctor 2 uploads a file for doctor 1's patient 10; the
request is rejected with 403, the temp file is unlinked, no record is
created. -/
theorem uploadRetinalImage_rejection_cleanup_witness :
    ("uploads/input/tmp1.png" ∈ ["uploads/input/tmp1.png"] ∧
     (∃ p, findPatient dbOwned 10 = some p ∧ p.doctorId ≠ 2)) ∧
    ((uploadRetinalImage dbOwned ["uploads/input/tmp1.png"] 2 10
        (some { path := "uploads/input/tmp1.png", mimetype := "image/png",
                filename := "tmp1.png" }) false).1 ≠ 201 ∧
     "uploads/input/tmp1.png" ∉
       (uploadRetinalImage dbOwned ["uploads/input/tmp1.png"] 2 10
         (some { path := "uploads/input/tmp1.png", mimetype := "image/png",
                 filename := "tmp1.png" }) false).2.2 ∧
     (uploadRetinalImage dbOwned ["uploads/input/tmp1.png"] 2 10
        (some { path := "uploads/input/tmp1.png", mimetype := "image/png",
                filename := "tmp1.png" }) false).2.1.images
       = dbOwned.images) :=
  ⟨⟨by decide, ⟨pat10, by decide, by decide⟩⟩,
   uploadRetinalImage_rejection_cleanup dbOwned ["uploads/input/tmp1.png"] 2 10
     { path := "uploads/input/tmp1.png", mimetype := "image/png",
       filename := "tmp1.png" } false (by decide)
     (Or.inr (Or.inr (Or.inl ⟨pat10, by decide, by decide⟩)))⟩

/-! ## C7: severity order and the per-patient most-severe computation -/

/-- A string is one of the five severity levels of the fixed scale. -/
def ValidSeverity (s : String) : Prop := (severityOrder s).isSome = true

instance (s : String) : Decidable (ValidSeverity s) := by
  unfold ValidSeverity
  infer_instance

/-- The rank of a severity on the scale (0 for strings off the scale). -/
def rankD (s : String) : Nat := (severityOrder s).getD 0

/-- The per-severity accumulator step of the `forEach` body, on one map
entry: absent → store, present → overwrite iff strictly more severe. -/
def sevStep (acc : Option String) (s : String) : Option String :=
  match acc with
  | none => some s
  | some cur => if isMoreSevere s cur then some s else some cur

/-- On the scale, `isMoreSevere` is the strict rank order. -/
theorem isMoreSevere_iff {a b : String}
    (ha : ValidSeverity a) (hb : ValidSeverity b) :
    isMoreSevere a b = true ↔ rankD b < rankD a := by
  obtain ⟨x, hx⟩ := Option.isSome_iff_exists.mp ha
  obtain ⟨y, hy⟩ := Option.isSome_iff_exists.mp hb
  simp [isMoreSevere, rankD, hx, hy]

/-- Appending a fresh entry for an absent key makes it found. -/
theorem alLookup_append_self (m : List (Nat × String)) (pid : Nat) (s : String)
    (h : alLookup pid m = none) :
    alLookup pid (m ++ [(pid, s)]) = some s := by
  induction m with
  | nil => simp [alLookup]
  | cons e rest ih =>
    obtain ⟨k2, v2⟩ := e
    by_cases hk2 : (k2 == pid) = true
    · rw [alLookup, if_pos hk2] at h
      exact absurd h (by simp)
    · rw [alLookup, if_neg hk2] at h
      show alLookup pid ((k2, v2) :: (rest ++ [(pid, s)])) = some s
      rw [alLookup, if_neg hk2]
      exact ih h

/-- Appending an entry for a different key changes no other lookup. -/
theorem alLookup_append_other (m : List (Nat × String)) (k pid : Nat)
    (s : String) (h : (k == pid) = false) :
    alLookup pid (m ++ [(k, s)]) = alLookup pid m := by
  induction m with
  | nil => simp [alLookup, h]
  | cons e rest ih =>
    obtain ⟨k2, v2⟩ := e
    show alLookup pid ((k2, v2) :: (rest ++ [(k, s)]))
      = alLookup pid ((k2, v2) :: rest)
    by_cases hk2 : (k2 == pid) = true
    · rw [alLookup, if_pos hk2, alLookup, if_pos hk2]
    · rw [alLookup, if_neg hk2, alLookup, if_neg hk2]
      exact ih

/-- Overwriting a present key makes the new value found. -/
theorem alLookup_alSet_self (m : List (Nat × String)) (pid : Nat)
    (s cur : String) (h : alLookup pid m = some cur) :
    alLookup pid (alSet pid s m) = some s := by
  induction m with
  | nil => simp [alLookup] at h
  | cons e rest ih =>
    obtain ⟨k2, v2⟩ := e
    by_cases hk2 : (k2 == pid) = true
    · show alLookup pid (if k2 == pid then (k2, s) :: rest
        else (k2, v2) :: alSet pid s rest) = some s
      rw [if_pos hk2, alLookup, if_pos hk2]
    · rw [alLookup, if_neg hk2] at h
      show alLookup pid (if k2 == pid then (k2, s) :: rest
        else (k2, v2) :: alSet pid s rest) = some s
      rw [if_neg hk2, alLookup, if_neg hk2]
      exact ih h

/-- Overwriting one key changes no other lookup. -/
theorem alLookup_alSet_other (m : List (Nat × String)) (k pid : Nat)
    (s : String) (h : (k == pid) = false) :
    alLookup pid (alSet k s m) = alLookup pid m := by
  induction m with
  | nil => rfl
  | cons e rest ih =>
    obtain ⟨k2, v2⟩ := e
    by_cases hk2 : (k2 == k) = true
    · have hk2pid : (k2 == pid) = false := by
        have : k2 = k := by simpa using hk2
        rw [this]
        exact h
      show alLookup pid (if k2 == k then (k2, s) :: rest
        else (k2, v2) :: alSet k s rest) = alLookup pid ((k2, v2) :: rest)
      rw [if_pos hk2, alLookup, alLookup]
      rw [hk2pid]
      simp only [Bool.false_eq_true, if_false]
    · show alLookup pid (if k2 == k then (k2, s) :: rest
        else (k2, v2) :: alSet k s rest) = alLookup pid ((k2, v2) :: rest)
      rw [if_neg hk2]
      by_cases hk2pid : (k2 == pid) = true
      · rw [alLookup, if_pos hk2pid, alLookup, if_pos hk2pid]
      · rw [alLookup, if_neg hk2pid, alLookup, if_neg hk2pid]
        exact ih

/-- One `forEach` iteration updates exactly the entry of its patient id,
by the severity accumulator step. -/
theorem alLookup_mapStep (m : List (Nat × String)) (e : Nat × String)
    (pid : Nat) :
    alLookup pid (mapStep m e)
      = if e.1 == pid then sevStep (alLookup pid m) e.2
        else alLookup pid m := by
  obtain ⟨k, s⟩ := e
  by_cases hk : (k == pid) = true
  · have hkeq : k = pid := by simpa using hk
    subst hkeq
    rw [if_pos hk]
    cases hcur : alLookup k m with
    | none =>
      simp only [mapStep, hcur]
      rw [alLookup_append_self m k s hcur]
      rfl
    | some cur =>
      simp only [mapStep, hcur]
      by_cases hms : isMoreSevere s cur = true
      · rw [if_pos hms, alLookup_alSet_self m k s cur hcur]
        simp [sevStep, hms]
      · rw [if_neg hms, hcur]
        simp [sevStep, hms]
  · rw [if_neg hk]
    have hkf : (k == pid) = false := by rwa [Bool.not_eq_true] at hk
    cases hcur : alLookup k m with
    | none =>
      simp only [mapStep, hcur]
      exact alLookup_append_other m k pid s hkf
    | some cur =>
      simp only [mapStep, hcur]
      by_cases hms : isMoreSevere s cur = true
      · rw [if_pos hms]
        exact alLookup_alSet_other m k pid s hkf
      · rw [if_neg hms]

/-- `filter` over a cons whose head satisfies the predicate. -/
theorem filter_head_true {α : Type} {p : α → Bool} (a : α) (l : List α)
    (h : p a = true) : List.filter p (a :: l) = a :: List.filter p l :=
  List.filter_cons_of_pos h

/-- `filter` over a cons whose head fails the predicate. -/
theorem filter_head_false {α : Type} {p : α → Bool} (a : α) (l : List α)
    (h : p a = false) : List.filter p (a :: l) = List.filter p l :=
  List.filter_cons_of_neg (by simp [h])

/-- The whole map fold, viewed through one patient id, is the severity fold
over that patient's severities in diagnosis order. -/
theorem alLookup_foldl (l : List (Nat × String)) (pid : Nat) :
    ∀ m, alLookup pid (l.foldl mapStep m)
      = ((l.filter (fun e => e.1 == pid)).map Prod.snd).foldl sevStep
          (alLookup pid m) := by
  induction l with
  | nil => intro m; rfl
  | cons e rest ih =>
    intro m
    rw [List.foldl_cons, ih (mapStep m e)]
    by_cases hk : (e.1 == pid) = true
    · rw [alLookup_mapStep, if_pos hk, filter_head_true e rest hk,
          List.map_cons, List.foldl_cons]
    · have hkf : (e.1 == pid) = false := by rwa [Bool.not_eq_true] at hk
      rw [alLookup_mapStep, if_neg hk, filter_head_false e rest hkf]

/-- The severity fold started at a valid severity yields the first maximum
of the accumulator and the list: a value of maximal rank such that every
strictly earlier list element has strictly smaller rank. -/
theorem sevFold_first_max :
    ∀ (l : List String) (m : String), ValidSeverity m →
      (∀ s ∈ l, ValidSeverity s) →
      ∃ m2, l.foldl sevStep (some m) = some m2 ∧ ValidSeverity m2 ∧
        ((m2 = m ∧ ∀ s ∈ l, rankD s ≤ rankD m) ∨
         (∃ i, l.get? i = some m2 ∧ rankD m < rankD m2 ∧
            (∀ s ∈ l.take i, rankD s < rankD m2) ∧
            (∀ s ∈ l, rankD s ≤ rankD m2))) := by
  intro l
  induction l with
  | nil =>
    intro m hm _
    exact ⟨m, rfl, hm, Or.inl ⟨rfl, by simp⟩⟩
  | cons s rest ih =>
    intro m hm hall
    have hs : ValidSeverity s := hall s (by simp)
    have hrest : ∀ t ∈ rest, ValidSeverity t := fun t ht =>
      hall t (by simp [ht])
    rw [List.foldl_cons]
    by_cases hms : isMoreSevere s m = true
    · have hlt : rankD m < rankD s := (isMoreSevere_iff hs hm).mp hms
      have hstep : sevStep (some m) s = some s := by simp [sevStep, hms]
      rw [hstep]
      obtain ⟨m2, hfold, hvm2, hcase⟩ := ih s hs hrest
      refine ⟨m2, hfold, hvm2, Or.inr ?_⟩
      rcases hcase with ⟨heq, hmax⟩ | ⟨i, hget, hlt2, htake, hmax⟩
      · subst heq
        refine ⟨0, rfl, hlt, by simp, ?_⟩
        intro t ht
        rcases List.mem_cons.mp ht with h | h
        · subst h; exact le_refl _
        · exact hmax t h
      · refine ⟨i + 1, by simpa using hget, lt_trans hlt hlt2, ?_, ?_⟩
        · intro t ht
          rw [List.take_succ_cons] at ht
          rcases List.mem_cons.mp ht with h | h
          · subst h; exact hlt2
          · exact htake t h
        · intro t ht
          rcases List.mem_cons.mp ht with h | h
          · subst h; exact le_of_lt hlt2
          · exact hmax t h
    · have hnlt : ¬ (rankD m < rankD s) := fun hc =>
        hms ((isMoreSevere_iff hs hm).mpr hc)
      have hle : rankD s ≤ rankD m := Nat.le_of_not_lt hnlt
      have hstep : sevStep (some m) s = some m := by simp [sevStep, hms]
      rw [hstep]
      obtain ⟨m2, hfold, hvm2, hcase⟩ := ih m hm hrest
      refine ⟨m2, hfold, hvm2, ?_⟩
      rcases hcase with ⟨heq, hmax⟩ | ⟨i, hget, hlt2, htake, hmax⟩
      · subst heq
        refine Or.inl ⟨rfl, ?_⟩
        intro t ht
        rcases List.mem_cons.mp ht with h | h
        · subst h; exact hle
        · exact hmax t h
      · refine Or.inr ⟨i + 1, by simpa using hget, hlt2, ?_, ?_⟩
        · intro t ht
          rw [List.take_succ_cons] at ht
          rcases List.mem_cons.mp ht with h | h
          · subst h; exact lt_of_le_of_lt hle hlt2
          · exact htake t h
        · intro t ht
          rcases List.mem_cons.mp ht with h | h
          · subst h; exact le_trans hle (le_of_lt hlt2)
          · exact hmax t h

/-- C7. The per-patient severity computed by `getPatientsBySeverity` is the
maximum of that patient's diagnosis severities under the fixed total order
`normal < low < medium < high < severe` (via `isMoreSevere`), with ties
broken by keeping the first found: the map entry is an element of maximal
rank whose strictly earlier occurrences all have strictly smaller rank; a
patient with no diagnoses has no entry. -/
theorem patientSeverityMap_first_max
    (diags : List (Nat × String)) (pid : Nat)
    (hvalid : ∀ e ∈ diags, ValidSeverity e.2) :
    ((diags.filter (fun e => e.1 == pid)).map Prod.snd = [] →
      alLookup pid (patientSeverityMap diags) = none) ∧
    (∀ s0 rest,
      (diags.filter (fun e => e.1 == pid)).map Prod.snd = s0 :: rest →
      ∃ m i, alLookup pid (patientSeverityMap diags) = some m ∧
        (s0 :: rest).get? i = some m ∧
        (∀ s ∈ s0 :: rest, rankD s ≤ rankD m) ∧
        (∀ s ∈ (s0 :: rest).take i, rankD s < rankD m)) := by
  have hbridge := alLookup_foldl diags pid []
  constructor
  · intro hnil
    show alLookup pid (diags.foldl mapStep []) = none
    rw [hbridge, hnil]
    rfl
  · intro s0 rest heq
    have hmem : ∀ s ∈ s0 :: rest, ValidSeverity s := by
      intro s hsmem
      rw [← heq] at hsmem
      obtain ⟨e, he, hee⟩ := List.mem_map.mp hsmem
      have hv := hvalid e (List.mem_filter.mp he).1
      rwa [hee] at hv
    have hs0 : ValidSeverity s0 := hmem s0 (by simp)
    have hrest : ∀ t ∈ rest, ValidSeverity t := fun t ht =>
      hmem t (by simp [ht])
    obtain ⟨m2, hfold, _, hcase⟩ := sevFold_first_max rest s0 hs0 hrest
    have hlook : alLookup pid (patientSeverityMap diags) = some m2 := by
      show alLookup pid (diags.foldl mapStep []) = some m2
      rw [hbridge, heq, List.foldl_cons]
      exact hfold
    rcases hcase with ⟨heq2, hmax⟩ | ⟨i, hget, hlt2, htake, hmax⟩
    · subst heq2
      refine ⟨m2, 0, hlook, rfl, ?_, by simp⟩
      intro t ht
      rcases List.mem_cons.mp ht with h | h
      · subst h; exact le_refl _
      · exact hmax t h
    · refine ⟨m2, i + 1, hlook, by simpa using hget, ?_, ?_⟩
      · intro t ht
        rcases List.mem_cons.mp ht with h | h
        · subst h; exact le_of_lt hlt2
        · exact hmax t h
      · intro t ht
        rw [List.take_succ_cons] at ht
        rcases List.mem_cons.mp ht with h | h
        · subst h; exact hlt2
        · exact htake t h

/-- The spec's example: one patient with severities low, severe, medium. -/
def sampleDiags : List (Nat × String) :=
  [(7, "low"), (7, "severe"), (7, "medium")]

/-- Witness for C7 on the spec's example; in particular the computed entry
is `severe`. -/
theorem patientSeverityMap_first_max_witness :
    (∀ e ∈ sampleDiags, ValidSeverity e.2) ∧
    ((sampleDiags.filter (fun e => e.1 == 7)).map Prod.snd
      = "low" :: ["severe", "medium"]) ∧
    (∃ m i, alLookup 7 (patientSeverityMap sampleDiags) = some m ∧
      ("low" :: ["severe", "medium"]).get? i = some m ∧
      (∀ s ∈ "low" :: ["severe", "medium"], rankD s ≤ rankD m) ∧
      (∀ s ∈ ("low" :: ["severe", "medium"]).take i, rankD s < rankD m)) ∧
    alLookup 7 (patientSeverityMap sampleDiags) = some "severe" :=
  ⟨by decide, by decide,
   (patientSeverityMap_first_max sampleDiags 7 (by decide)).2 "low"
     ["severe", "medium"] (by decide),
   by decide⟩

end MyopiaDx
